import Mathlib

/-
Verification of the AURA retinal screening post-processing pipeline
(src/ai-core/app/model_service.py, main.py, image_processor.py).

Shallow embedding conventions:
* Python floats are modelled as exact rationals (ℚ); the two places the code
  takes a square root (numpy std, the Wilson interval margin) are modelled
  over ℝ with Real.sqrt.
* Dictionaries with a fixed key set become functions out of a finite
  inductive key type; Python dict iteration order (insertion order) is kept
  by folding over explicit key lists in the source's insertion order.
* Purely descriptive metadata fields (clinical_name, icd10, description,
  systemic_risks tags, the Vietnamese recommendation strings) are omitted:
  no claim refers to them and they do not feed any computation.
-/

namespace Aura

/-- The classifier's class labels (`RetinalModelService.OCT_CLASSES`). -/
inductive OctClass
  | CNV
  | DME
  | DRUSEN
  | NORMAL
deriving DecidableEq, Repr

/-- A probability vector over the four classes, in `OCT_CLASSES` order. -/
structure Probs where
  cnv : ℚ
  dme : ℚ
  drusen : ℚ
  normal : ℚ
deriving DecidableEq, Repr

/-- Index a probability vector by class. -/
def Probs.get (p : Probs) : OctClass → ℚ
  | .CNV => p.cnv
  | .DME => p.dme
  | .DRUSEN => p.drusen
  | .NORMAL => p.normal

/-- `RetinalModelService.CLINICAL_THRESHOLDS`. -/
def clinicalThreshold : OctClass → ℚ
  | .CNV => 3/10
  | .DME => 3/10
  | .DRUSEN => 2/5
  | .NORMAL => 1/2

/-- Severity labels produced by `_determine_severity`. -/
inductive Severity
  | notDetected
  | mild
  | moderate
  | severe
  | advanced
  | healthy
  | uncertain
deriving DecidableEq, Repr

/-- `RetinalModelService._determine_severity`. -/
def determineSeverity (c : OctClass) (p : ℚ) : Severity :=
  if c = OctClass.NORMAL then
    (if 7/10 < p then Severity.healthy else Severity.uncertain)
  else if p < 3/10 then Severity.notDetected
  else if p < 1/2 then Severity.mild
  else if p < 7/10 then Severity.moderate
  else if p < 17/20 then Severity.severe
  else Severity.advanced

/-- Urgency tags from `CONDITION_MAPPING[...]["urgency"]`. -/
inductive Urgency
  | low
  | medium
  | high
deriving DecidableEq, Repr

/-- Per-class urgency from `CONDITION_MAPPING`. -/
def conditionUrgency : OctClass → Urgency
  | .CNV => .high
  | .DME => .high
  | .DRUSEN => .medium
  | .NORMAL => .low

/-- One per-class record of `results["conditions"]` as `_build_clinical_results`
builds it (the confidence interval, being irrational-valued, is modelled by
the separate `confidenceInterval` function; descriptive metadata is omitted). -/
structure ConditionRecord where
  probability : ℚ
  positive : Bool
  threshold : ℚ
  severity : Severity
deriving DecidableEq, Repr

/-- The per-class body of the loop in `_build_clinical_results`. -/
def buildCondition (c : OctClass) (p : ℚ) : ConditionRecord :=
  { probability := p
    positive := decide (clinicalThreshold c ≤ p ∧ c ≠ OctClass.NORMAL)
    threshold := clinicalThreshold c
    severity := determineSeverity c p }

/-- The conditions dict of `_build_clinical_results` for a probability vector. -/
def buildConditions (ps : Probs) (c : OctClass) : ConditionRecord :=
  buildCondition c (ps.get c)

/-- The systemic risk categories (`SYSTEMIC_HEALTH_RISKS` keys, insertion order). -/
inductive RiskCat
  | cardiovascular
  | diabetes
  | hypertension
  | stroke
deriving DecidableEq, Repr

/-- The `risk_factors` table of `SYSTEMIC_HEALTH_RISKS`, per category, in
the source's insertion order. -/
def riskFactorTable : RiskCat → List (OctClass × ℚ)
  | .cardiovascular => [(.CNV, 3/10), (.DME, 2/5), (.DRUSEN, 1/5)]
  | .diabetes => [(.DME, 4/5)]
  | .hypertension => [(.CNV, 2/5), (.DRUSEN, 3/10)]
  | .stroke => [(.DME, 1/2), (.CNV, 3/10)]

/-- Risk level labels. `_calculate_systemic_health_risks` and
`enrich_systemic_risks_with_vascular` use Minimal/Low/Moderate/High;
`_assess_overall_risk` uses Minimal/Low/Medium/High. -/
inductive RiskLevel
  | minimal
  | low
  | moderate
  | medium
  | high
deriving DecidableEq, Repr

/-- The banding of a systemic risk score used both in
`_calculate_systemic_health_risks` and in `enrich_systemic_risks_with_vascular`. -/
def systemicLevel (s : ℚ) : RiskLevel :=
  if 3/5 ≤ s then RiskLevel.high
  else if 3/10 ≤ s then RiskLevel.moderate
  else if 1/10 ≤ s then RiskLevel.low
  else RiskLevel.minimal

/-- One entry of `results["systemic_health_risks"]` (name/description and the
confidence interval omitted; contributing conditions are kept as the list of
condition labels the source appends). -/
structure SystemicRisk where
  risk_score : ℚ
  risk_level : RiskLevel
  contributing_conditions : List OctClass
deriving DecidableEq, Repr

/-- `RetinalModelService._calculate_systemic_health_risks`, per category. -/
def calcSystemicRisk (conds : OctClass → ConditionRecord) (k : RiskCat) : SystemicRisk :=
  let raw := ((riskFactorTable k).map (fun cf =>
    if 1/10 < (conds cf.1).probability then (conds cf.1).probability * cf.2 else 0)).sum
  let score := min 1 raw
  { risk_score := score
    risk_level := systemicLevel score
    contributing_conditions := ((riskFactorTable k).filter (fun cf =>
      decide (1/10 < (conds cf.1).probability) && (conds cf.1).positive)).map Prod.fst }

/-- The overall risk assessment record of `_assess_overall_risk`
(`urgency` via `CONDITION_MAPPING`; `requires_referral` per the source). -/
structure RiskAssessment where
  risk_level : RiskLevel
  risk_score : ℚ
  combined_risk_score : ℚ
  primary_condition : OctClass
  positive_conditions : List OctClass
  high_systemic_risks : List RiskCat
  urgency : Urgency
  requires_referral : Bool
  requires_systemic_followup : Bool
deriving DecidableEq, Repr

/-- The non-healthy classes in dict iteration order (`NORMAL` is skipped by
the loop in `_assess_overall_risk`). -/
def nonNormalClasses : List OctClass := [.CNV, .DME, .DRUSEN]

/-- All systemic risk categories in dict iteration order. -/
def allRiskCats : List RiskCat := [.cardiovascular, .diabetes, .hypertension, .stroke]

/-- One step of the max-risk/primary-condition scan in `_assess_overall_risk`:
a positive condition whose probability strictly exceeds the running maximum
becomes the new primary. -/
def condScanStep (conds : OctClass → ConditionRecord) (acc : ℚ × OctClass) (c : OctClass) :
    ℚ × OctClass :=
  if (conds c).positive = true ∧ acc.1 < (conds c).probability
  then ((conds c).probability, c) else acc

/-- `RetinalModelService._assess_overall_risk` (pass 1, before the vascular
re-blend of `enrich_systemic_risks_with_vascular`). -/
def assessOverallRisk (conds : OctClass → ConditionRecord) (sys : RiskCat → SystemicRisk) :
    RiskAssessment :=
  let scan := nonNormalClasses.foldl (condScanStep conds) (0, OctClass.NORMAL)
  let maxRisk := scan.1
  let positives := nonNormalClasses.filter (fun c => (conds c).positive)
  let maxSystemic := allRiskCats.foldl
    (fun m k => if m < (sys k).risk_score then (sys k).risk_score else m) 0
  let highSystemic := allRiskCats.filter (fun k =>
    decide ((sys k).risk_level = RiskLevel.high) || decide ((sys k).risk_level = RiskLevel.moderate))
  let combined := max maxRisk (maxSystemic * (4/5))
  let level0 :=
    if 7/10 ≤ combined then RiskLevel.high
    else if 2/5 ≤ maxRisk then RiskLevel.medium
    else if 3/10 ≤ maxRisk then RiskLevel.low
    else RiskLevel.minimal
  let normalProb := (conds OctClass.NORMAL).probability
  let level := if 7/10 < normalProb then RiskLevel.low else level0
  let primary := if 7/10 < normalProb then OctClass.NORMAL else scan.2
  let score := if primary ≠ OctClass.NORMAL then maxRisk else 1 - normalProb
  { risk_level := level
    risk_score := score
    combined_risk_score := combined
    primary_condition := primary
    positive_conditions := positives
    high_systemic_risks := highSystemic
    urgency := conditionUrgency primary
    requires_referral :=
      decide ((level = RiskLevel.high ∨ level = RiskLevel.medium) ∧ primary ≠ OctClass.NORMAL)
    requires_systemic_followup := decide (highSystemic ≠ []) }

/-- The vascular metrics vector (`features["vascular_metrics"]` of
`ImageProcessor.analyze_image_features`). -/
structure VascularMetrics where
  tortuosity_index : ℚ
  width_variation_index : ℚ
  microaneurysm_count : ℕ
  hemorrhage_score : ℚ
deriving DecidableEq, Repr

/-- The `vascular_influence` table of `enrich_systemic_risks_with_vascular`. -/
def vascularInfluence (v : VascularMetrics) : RiskCat → ℚ
  | .cardiovascular =>
      1/4 * v.tortuosity_index + 1/4 * v.width_variation_index + 1/4 * v.hemorrhage_score
  | .hypertension => 7/20 * v.tortuosity_index + 1/4 * v.width_variation_index
  | .diabetes => 1/5 * v.hemorrhage_score
  | .stroke => 3/10 * v.hemorrhage_score + 1/5 * v.tortuosity_index

/-- `boosted_score = min(1.0, score + min(extra, 0.25))` from
`enrich_systemic_risks_with_vascular`. -/
def boostedScore (score extra : ℚ) : ℚ := min 1 (score + min extra (1/4))

/-- The per-category update of `enrich_systemic_risks_with_vascular`. -/
def enrichSystemic (sys : RiskCat → SystemicRisk) (v : VascularMetrics) (k : RiskCat) :
    SystemicRisk :=
  let b := boostedScore (sys k).risk_score (vascularInfluence v k)
  { sys k with risk_score := b, risk_level := systemicLevel b }

/-- `max_systemic_score` as accumulated over the loop of
`enrich_systemic_risks_with_vascular`. -/
def maxBoostedSystemic (sys : RiskCat → SystemicRisk) (v : VascularMetrics) : ℚ :=
  allRiskCats.foldl (fun m k => max m (enrichSystemic sys v k).risk_score) 0

/-- The risk-assessment update of `enrich_systemic_risks_with_vascular`
(the non-degenerate path: both the systemic dict and the vascular metrics are
present, as they always are in `perform_analysis`). Only `risk_level` and
`combined_risk_score` change; every other field, `requires_referral`
included, is copied from the base assessment. -/
def enrichAssessment (sys : RiskCat → SystemicRisk) (v : VascularMetrics)
    (base : RiskAssessment) : RiskAssessment :=
  let combined := max base.risk_score (maxBoostedSystemic sys v * (4/5))
  let maxVascular := max v.tortuosity_index (max v.width_variation_index v.hemorrhage_score)
  let newLevel :=
    if 7/10 ≤ maxVascular ∧
        (base.risk_level = RiskLevel.minimal ∨ base.risk_level = RiskLevel.low)
    then RiskLevel.medium
    else if 7/10 ≤ combined then RiskLevel.high
    else if 2/5 ≤ combined then RiskLevel.medium
    else if 3/10 ≤ combined then RiskLevel.low
    else RiskLevel.minimal
  { base with risk_level := newLevel, combined_risk_score := combined }

/-- The risk assessment `perform_analysis` returns to the caller: pass 1
(`_build_clinical_results` → `_assess_overall_risk`) followed by the vascular
re-blend (`enrich_systemic_risks_with_vascular`). -/
def analyzeRiskAssessment (ps : Probs) (v : VascularMetrics) : RiskAssessment :=
  let conds := buildConditions ps
  let sys := calcSystemicRisk conds
  enrichAssessment sys v (assessOverallRisk conds sys)

/-- The hardcoded `conditions` dict of `generate_fallback_results`. -/
def fallbackConditions : OctClass → ConditionRecord
  | .CNV => { probability := 1/10, positive := false, threshold := 3/10,
              severity := Severity.notDetected }
  | .DME => { probability := 1/10, positive := false, threshold := 3/10,
              severity := Severity.notDetected }
  | .DRUSEN => { probability := 1/10, positive := false, threshold := 2/5,
                 severity := Severity.notDetected }
  | .NORMAL => { probability := 7/10, positive := true, threshold := 1/2,
                 severity := Severity.healthy }

/-- The hardcoded `systemic_health_risks` dict of `generate_fallback_results`
(every category: score 0.1, level Minimal, no contributing conditions). -/
def fallbackSystemic : RiskCat → SystemicRisk := fun _ =>
  { risk_score := 1/10, risk_level := RiskLevel.minimal, contributing_conditions := [] }

/-- The `risk_assessment` dict of `generate_fallback_results` carries only
these six keys (no combined score, no systemic fields). -/
structure FallbackAssessment where
  risk_level : RiskLevel
  risk_score : ℚ
  primary_condition : OctClass
  positive_conditions : List OctClass
  urgency : Urgency
  requires_referral : Bool
deriving DecidableEq, Repr

/-- The hardcoded `risk_assessment` of `generate_fallback_results`. -/
def fallbackRiskAssessment : FallbackAssessment :=
  { risk_level := RiskLevel.low
    risk_score := 1/10
    primary_condition := OctClass.NORMAL
    positive_conditions := []
    urgency := Urgency.low
    requires_referral := false }

/-- The fallback probability vector the spec describes (70% healthy, the
remainder split across the other classes), matching the probabilities of the
hardcoded fallback conditions dict. -/
def fallbackProbs : Probs := { cnv := 1/10, dme := 1/10, drusen := 1/10, normal := 7/10 }

/-- The raw-features dict built by `ImageProcessor.analyze_image_features`. -/
structure RawFeatures where
  vessel_density : ℚ
  potential_abnormalities_count : ℕ
  texture_variance : ℚ
  vascular_metrics : VascularMetrics
deriving DecidableEq, Repr

/-- The vascular-metrics derivation block of `analyze_image_features`
(the fourth `try` block), as a function of the local variables
`vessel_density`, `potential_abnormalities_count` and `texture_variance`. -/
def deriveVascularMetrics (vd : ℚ) (count : ℕ) (tv : ℚ) : VascularMetrics :=
  let vdNorm := max 0 (min 1 (vd * 5))
  let tvNorm := max 0 (min 1 (tv / 500))
  { tortuosity_index := max 0 (min 1 (3/5 * tvNorm + 2/5 * vdNorm))
    width_variation_index := max 0 (min 1 (7/10 * tvNorm + 3/10 * (1 - vdNorm)))
    microaneurysm_count := count
    hemorrhage_score := max 0 (min 1 (1/2 * ((count : ℚ) / 50) + 1/2 * vdNorm)) }

/-- The all-zero defaults installed by the `except` arm of the vascular
derivation block of `analyze_image_features`. -/
def defaultVascularMetrics : VascularMetrics :=
  { tortuosity_index := 0, width_variation_index := 0,
    microaneurysm_count := 0, hemorrhage_score := 0 }

/-- `ImageProcessor.analyze_image_features`, modelled as a function of the
outcomes of its three guarded sub-computations: `edge` is the Canny result
(`none` means the edge-detection `try` block raised), `blob` the blob count,
`texture` the texture variance. Each `except` arm stores the feature's
neutral default (0 / 0.0) in the dict. The derivation block reads the Python
LOCAL variables, not the dict: when edge or blob detection failed their
locals are unbound, the derivation raises `NameError` and its `except` arm
installs `defaultVascularMetrics`; a texture failure rebinds its local to
0.0, so derivation proceeds with 0. -/
def analyzeImageFeatures (edge : Option ℚ) (blob : Option ℕ) (texture : Option ℚ) :
    RawFeatures :=
  { vessel_density := edge.getD 0
    potential_abnormalities_count := blob.getD 0
    texture_variance := texture.getD 0
    vascular_metrics :=
      match edge, blob with
      | some vd, some count => deriveVascularMetrics vd count (texture.getD 0)
      | _, _ => defaultVascularMetrics }

/-- A grayscale image: the single-channel (luminance) view every metric of
`assess_image_quality`, `validate_image` and `analyze_image_features` is
computed on, after the source's dtype conversion. Pixels outside
`[0, img.h) × [0, img.w)` are irrelevant: every metric only reads inside. -/
structure GrayImage where
  h : ℕ
  w : ℕ
  px : ℕ → ℕ → ℚ

/-- The index set of an image's pixels. -/
def pixels (img : GrayImage) : Finset (ℕ × ℕ) := Finset.range img.h ×ˢ Finset.range img.w

/-- `np.mean` of a per-pixel quantity. -/
def meanOver (img : GrayImage) (f : ℕ → ℕ → ℚ) : ℚ :=
  (∑ p ∈ pixels img, f p.1 p.2) / ((img.h : ℚ) * (img.w : ℚ))

/-- `np.var` (mean of squared deviations) of a per-pixel quantity. -/
def varOver (img : GrayImage) (f : ℕ → ℕ → ℚ) : ℚ :=
  meanOver img (fun i j => (f i j - meanOver img f) ^ 2)

/-- OpenCV's default `BORDER_REFLECT_101` index mapping for the offsets
`-1` and `n` reached by a 3×3 kernel: `-1 ↦ 1`, `n ↦ n-2`. -/
def reflect101 (n : ℕ) (i : ℤ) : ℕ :=
  (if i < 0 then -i else if (n : ℤ) ≤ i then 2 * ((n : ℤ) - 1) - i else i).toNat

/-- `cv2.Laplacian(gray, cv2.CV_64F)` with the default aperture: the 3×3
kernel `[[0,1,0],[1,-4,1],[0,1,0]]` with reflect-101 borders. -/
def laplacian (img : GrayImage) (i j : ℕ) : ℚ :=
  img.px (reflect101 img.h ((i : ℤ) - 1)) j + img.px (reflect101 img.h ((i : ℤ) + 1)) j
    + img.px i (reflect101 img.w ((j : ℤ) - 1)) + img.px i (reflect101 img.w ((j : ℤ) + 1))
    - 4 * img.px i j

/-- A nonempty image has a pixel. -/
def pixelsNonempty (img : GrayImage) (hh : img.h ≠ 0) (hw : img.w ≠ 0) :
    (pixels img).Nonempty :=
  ⟨(0, 0), by
    simp only [pixels, Finset.mem_product, Finset.mem_range]
    omega⟩

/-- `np.max` over a (nonempty) image. -/
def maxPix (img : GrayImage) (hh : img.h ≠ 0) (hw : img.w ≠ 0) : ℚ :=
  (pixels img).sup' (pixelsNonempty img hh hw) (fun p => img.px p.1 p.2)

/-- `np.min` over a (nonempty) image. -/
def minPix (img : GrayImage) (hh : img.h ≠ 0) (hw : img.w ≠ 0) : ℚ :=
  (pixels img).inf' (pixelsNonempty img hh hw) (fun p => img.px p.1 p.2)

/-- `np.ptp` (max minus min) over a (nonempty) image. -/
def dynamicRange (img : GrayImage) (hh : img.h ≠ 0) (hw : img.w ≠ 0) : ℚ :=
  maxPix img hh hw - minPix img hh hw

/-- `ImageProcessor.assess_image_quality`. The blanket `except` that returns
0.0 on numerical failure is modelled by the degenerate-image branch (a
zero-size array is the one input on which the body's numpy/cv2 calls raise).
`np.std` is `Real.sqrt` of the exact variance, hence the ℝ codomain. -/
noncomputable def assessImageQuality (img : GrayImage) : ℝ :=
  if hdeg : img.h = 0 ∨ img.w = 0 then 0
  else
    min 1 (min ((varOver img (laplacian img) : ℝ) / 500) 1 * 0.3
      + min (Real.sqrt ((varOver img img.px : ℝ)) / 50) 1 * 0.3
      + min (|(meanOver img img.px : ℝ) - 128| / 128) 1 * 0.2
      + min (((dynamicRange img (fun h0 => hdeg (Or.inl h0))
          (fun w0 => hdeg (Or.inr w0)) : ℚ) : ℝ) / 255) 1 * 0.2)

/-- The issue strings `validate_image` can append, as tags. -/
inductive IssueTag
  | tooSmall
  | veryLarge
  | lowQuality
  | dark
  | bright
  | lowContrast
  | blurry
deriving DecidableEq, Repr

/-- The validation dict of `ImageProcessor.validate_image` (the
`characteristics` sub-dicts are descriptive only and are omitted; `is_valid`
starts `True` and is set `False` exactly by the too-small rule and the
low-quality rule, so it is their conjunction). -/
structure QualityReport where
  is_valid : Prop
  issues : List IssueTag
  quality_score : ℝ

/-- `ImageProcessor.validate_image` (the metadata argument is unused by the
source: dimensions are re-read from the array's shape). -/
noncomputable def validateImage (img : GrayImage) : QualityReport :=
  let q := assessImageQuality img
  let issues :=
    (if img.w < 256 ∨ img.h < 256 then [IssueTag.tooSmall] else [])
    ++ (if 4096 < img.w ∨ 4096 < img.h then [IssueTag.veryLarge] else [])
    ++ (if q < 1/2 then [IssueTag.lowQuality] else [])
    ++ (if (meanOver img img.px : ℝ) < 50 then [IssueTag.dark]
        else if 200 < (meanOver img img.px : ℝ) then [IssueTag.bright] else [])
    ++ (if Real.sqrt ((varOver img img.px : ℝ)) < 20 then [IssueTag.lowContrast] else [])
    ++ (if (varOver img (laplacian img) : ℝ) < 100 then [IssueTag.blurry] else [])
  { is_valid := ¬ (img.w < 256 ∨ img.h < 256) ∧ ¬ (q < 1/2)
    issues := issues
    quality_score := max 0 (min 1 q) }

/-- `RetinalModelService._calculate_confidence_interval`: the Wilson score
interval at z = 1.96 with pseudo-sample size `n` (default 1000), returning
(lower, upper). -/
noncomputable def confidenceInterval (p : ℝ) (n : ℕ) : ℝ × ℝ :=
  let z : ℝ := 1.96
  let denominator := 1 + z ^ 2 / n
  let center := p + z ^ 2 / (2 * n)
  let margin := z * Real.sqrt (p * (1 - p) / n + z ^ 2 / (4 * (n : ℝ) ^ 2))
  (max 0 ((center - margin) / denominator), min 1 ((center + margin) / denominator))

/-- The striped test image used to witness that an oversize dimension does
not invalidate a report: 4098 rows (over the 4096 bound) of width 256,
alternating all-black and all-white rows. -/
def stripeImage : GrayImage :=
  { h := 4098, w := 256, px := fun i _ => if i % 2 = 0 then 0 else 255 }

/-! Theorems. Helper lemmas come first, then one theorem (plus witness or
counterexample where applicable) per claim. -/

/-- A class is in the scanned list exactly when it is not the healthy class. -/
theorem mem_nonNormalClasses (c : OctClass) : c ∈ nonNormalClasses ↔ c ≠ OctClass.NORMAL := by
  cases c <;> simp [nonNormalClasses]

/-- Invariant of the max-risk/primary scan of `_assess_overall_risk`: the
result is the start accumulator or a positive scanned class with its
probability, and it dominates every positive scanned class. -/
theorem condScan_foldl_spec (conds : OctClass → ConditionRecord) (l : List OctClass)
    (acc : ℚ × OctClass) :
    (l.foldl (condScanStep conds) acc = acc ∨
      ∃ c ∈ l, (conds c).positive = true ∧
        (l.foldl (condScanStep conds) acc).1 = (conds c).probability ∧
        (l.foldl (condScanStep conds) acc).2 = c) ∧
    (∀ c ∈ l, (conds c).positive = true →
      (conds c).probability ≤ (l.foldl (condScanStep conds) acc).1) ∧
    acc.1 ≤ (l.foldl (condScanStep conds) acc).1 := by
  induction l generalizing acc with
  | nil => simp
  | cons d t ih =>
    simp only [List.foldl_cons]
    rcases ih (condScanStep conds acc d) with ⟨hA, hB, hC⟩
    by_cases hd : (conds d).positive = true ∧ acc.1 < (conds d).probability
    · refine ⟨?_, ?_, ?_⟩
      · rcases hA with hA | ⟨c, hc, hpos, h1, h2⟩
        · right
          refine ⟨d, List.mem_cons_self d t, hd.1, ?_, ?_⟩
          · rw [hA]; simp [condScanStep, if_pos hd]
          · rw [hA]; simp [condScanStep, if_pos hd]
        · right; exact ⟨c, List.mem_cons_of_mem d hc, hpos, h1, h2⟩
      · intro c hc hpos
        rcases List.mem_cons.mp hc with rfl | hct
        · have hle : (conds c).probability ≤ (condScanStep conds acc c).1 := by
            simp [condScanStep, if_pos hd]
          exact le_trans hle hC
        · exact hB c hct hpos
      · have hle : acc.1 ≤ (condScanStep conds acc d).1 := by
          simp only [condScanStep, if_pos hd]
          exact le_of_lt hd.2
        exact le_trans hle hC
    · have hstep : condScanStep conds acc d = acc := by
        simp [condScanStep, if_neg hd]
      rw [hstep] at hA hB hC ⊢
      refine ⟨?_, ?_, hC⟩
      · rcases hA with hA | ⟨c, hc, hpos, h1, h2⟩
        · left; exact hA
        · right; exact ⟨c, List.mem_cons_of_mem d hc, hpos, h1, h2⟩
      · intro c hc hpos
        rcases List.mem_cons.mp hc with rfl | hct
        · have hng : ¬ acc.1 < (conds c).probability := fun hlt => hd ⟨hpos, hlt⟩
          exact le_trans (not_lt.mp hng) hC
        · exact hB c hct hpos

/-- When the healthy-class probability exceeds 0.7 the override in
`_assess_overall_risk` forces level Low, primary NORMAL, and risk score
1 minus the healthy probability. -/
theorem assessOverallRisk_override (conds : OctClass → ConditionRecord)
    (sys : RiskCat → SystemicRisk) (hn : 7/10 < (conds OctClass.NORMAL).probability) :
    (assessOverallRisk conds sys).risk_level = RiskLevel.low ∧
    (assessOverallRisk conds sys).primary_condition = OctClass.NORMAL ∧
    (assessOverallRisk conds sys).risk_score = 1 - (conds OctClass.NORMAL).probability := by
  simp only [assessOverallRisk]
  rw [if_pos hn, if_pos hn]
  simp

/-- Every pass-1 systemic risk score is at most 4/5 of the total non-healthy
probability mass (every weight in the factor table is at most 0.8). -/
theorem calcSystemicRisk_le (conds : OctClass → ConditionRecord) (k : RiskCat)
    (hc : 0 ≤ (conds OctClass.CNV).probability)
    (hd : 0 ≤ (conds OctClass.DME).probability)
    (hr : 0 ≤ (conds OctClass.DRUSEN).probability) :
    (calcSystemicRisk conds k).risk_score ≤
      4/5 * ((conds OctClass.CNV).probability + (conds OctClass.DME).probability +
        (conds OctClass.DRUSEN).probability) := by
  have key : ∀ (p w : ℚ), 0 ≤ p → 0 ≤ w → w ≤ 4/5 →
      (if 1/10 < p then p * w else 0) ≤ 4/5 * p := by
    intro p w hp hw0 hw
    split_ifs with h
    · nlinarith
    · nlinarith
  cases k
  case cardiovascular =>
    simp only [calcSystemicRisk, riskFactorTable, List.map_cons, List.map_nil,
      List.sum_cons, List.sum_nil, add_zero]
    refine le_trans (min_le_right _ _) ?_
    have t1 := key _ _ hc (by norm_num) (by norm_num : (3:ℚ)/10 ≤ 4/5)
    have t2 := key _ _ hd (by norm_num) (by norm_num : (2:ℚ)/5 ≤ 4/5)
    have t3 := key _ _ hr (by norm_num) (by norm_num : (1:ℚ)/5 ≤ 4/5)
    linarith
  case diabetes =>
    simp only [calcSystemicRisk, riskFactorTable, List.map_cons, List.map_nil,
      List.sum_cons, List.sum_nil, add_zero]
    refine le_trans (min_le_right _ _) ?_
    have t1 := key _ _ hd (by norm_num) (le_refl ((4:ℚ)/5))
    linarith
  case hypertension =>
    simp only [calcSystemicRisk, riskFactorTable, List.map_cons, List.map_nil,
      List.sum_cons, List.sum_nil, add_zero]
    refine le_trans (min_le_right _ _) ?_
    have t1 := key _ _ hc (by norm_num) (by norm_num : (2:ℚ)/5 ≤ 4/5)
    have t2 := key _ _ hr (by norm_num) (by norm_num : (3:ℚ)/10 ≤ 4/5)
    linarith
  case stroke =>
    simp only [calcSystemicRisk, riskFactorTable, List.map_cons, List.map_nil,
      List.sum_cons, List.sum_nil, add_zero]
    refine le_trans (min_le_right _ _) ?_
    have t1 := key _ _ hd (by norm_num) (by norm_num : (1:ℚ)/2 ≤ 4/5)
    have t2 := key _ _ hc (by norm_num) (by norm_num : (3:ℚ)/10 ≤ 4/5)
    linarith

/-- The vascular boost adds at most 0.25 to a systemic score. -/
theorem enrichSystemic_le_add (sys : RiskCat → SystemicRisk) (v : VascularMetrics)
    (k : RiskCat) :
    (enrichSystemic sys v k).risk_score ≤ (sys k).risk_score + 1/4 := by
  have h1 : min (vascularInfluence v k) (1/4 : ℚ) ≤ 1/4 := min_le_right _ _
  have h2 : (enrichSystemic sys v k).risk_score ≤
      (sys k).risk_score + min (vascularInfluence v k) (1/4) := min_le_right _ _
  linarith

/-- An upper bound on every boosted score bounds the boosted maximum. -/
theorem maxBoostedSystemic_le (sys : RiskCat → SystemicRisk) (v : VascularMetrics)
    (B : ℚ) (hB : 0 ≤ B) (h : ∀ k, (enrichSystemic sys v k).risk_score ≤ B) :
    maxBoostedSystemic sys v ≤ B := by
  simp only [maxBoostedSystemic, allRiskCats, List.foldl]
  exact max_le (max_le (max_le (max_le hB (h _)) (h _)) (h _)) (h _)

/-- C1 (amended): for a probability vector (entries nonnegative, summing to 1)
whose healthy-class probability exceeds 0.7, the final risk assessment
returned to the caller has risk_level Low or Minimal and primary_condition
NORMAL, provided the vascular escalation of
`enrich_systemic_risks_with_vascular` does not fire, i.e. the maximum of
tortuosity, width variation and hemorrhage score is below 0.7. -/
theorem c1_override_holds_without_escalation (ps : Probs) (v : VascularMetrics)
    (hc : 0 ≤ ps.cnv) (hd : 0 ≤ ps.dme) (hr : 0 ≤ ps.drusen)
    (hsum : ps.cnv + ps.dme + ps.drusen + ps.normal = 1)
    (hn : 7/10 < ps.normal)
    (hvas : max v.tortuosity_index (max v.width_variation_index v.hemorrhage_score) < 7/10) :
    ((analyzeRiskAssessment ps v).risk_level = RiskLevel.low ∨
      (analyzeRiskAssessment ps v).risk_level = RiskLevel.minimal) ∧
    (analyzeRiskAssessment ps v).primary_condition = OctClass.NORMAL := by
  have hover := assessOverallRisk_override (buildConditions ps)
    (calcSystemicRisk (buildConditions ps)) hn
  have hsysle : ∀ k, (calcSystemicRisk (buildConditions ps) k).risk_score ≤ 6/25 := by
    intro k
    have hb := calcSystemicRisk_le (buildConditions ps) k hc hd hr
    have e1 : (buildConditions ps OctClass.CNV).probability = ps.cnv := rfl
    have e2 : (buildConditions ps OctClass.DME).probability = ps.dme := rfl
    have e3 : (buildConditions ps OctClass.DRUSEN).probability = ps.drusen := rfl
    rw [e1, e2, e3] at hb
    linarith
  have hboost : ∀ k,
      (enrichSystemic (calcSystemicRisk (buildConditions ps)) v k).risk_score ≤ 49/100 := by
    intro k
    have h1 := enrichSystemic_le_add (calcSystemicRisk (buildConditions ps)) v k
    have h2 := hsysle k
    linarith
  have hmb : maxBoostedSystemic (calcSystemicRisk (buildConditions ps)) v ≤ 49/100 :=
    maxBoostedSystemic_le _ _ _ (by norm_num) hboost
  have hcomb : max (assessOverallRisk (buildConditions ps)
        (calcSystemicRisk (buildConditions ps))).risk_score
      (maxBoostedSystemic (calcSystemicRisk (buildConditions ps)) v * (4/5)) < 2/5 := by
    apply max_lt
    · rw [hover.2.2]
      have e4 : (buildConditions ps OctClass.NORMAL).probability = ps.normal := rfl
      rw [e4]
      linarith
    · nlinarith
  have hfinal : analyzeRiskAssessment ps v =
      enrichAssessment (calcSystemicRisk (buildConditions ps)) v
        (assessOverallRisk (buildConditions ps) (calcSystemicRisk (buildConditions ps))) := rfl
  rw [hfinal]
  refine ⟨?_, hover.2.1⟩
  have hlev : (enrichAssessment (calcSystemicRisk (buildConditions ps)) v
      (assessOverallRisk (buildConditions ps) (calcSystemicRisk (buildConditions ps)))).risk_level =
      (if 7/10 ≤ max v.tortuosity_index (max v.width_variation_index v.hemorrhage_score) ∧
          ((assessOverallRisk (buildConditions ps)
              (calcSystemicRisk (buildConditions ps))).risk_level = RiskLevel.minimal ∨
            (assessOverallRisk (buildConditions ps)
              (calcSystemicRisk (buildConditions ps))).risk_level = RiskLevel.low)
        then RiskLevel.medium
        else if 7/10 ≤ max (assessOverallRisk (buildConditions ps)
              (calcSystemicRisk (buildConditions ps))).risk_score
            (maxBoostedSystemic (calcSystemicRisk (buildConditions ps)) v * (4/5))
          then RiskLevel.high
        else if 2/5 ≤ max (assessOverallRisk (buildConditions ps)
              (calcSystemicRisk (buildConditions ps))).risk_score
            (maxBoostedSystemic (calcSystemicRisk (buildConditions ps)) v * (4/5))
          then RiskLevel.medium
        else if 3/10 ≤ max (assessOverallRisk (buildConditions ps)
              (calcSystemicRisk (buildConditions ps))).risk_score
            (maxBoostedSystemic (calcSystemicRisk (buildConditions ps)) v * (4/5))
          then RiskLevel.low
        else RiskLevel.minimal) := rfl
  rw [hlev]
  rw [if_neg (fun hcon => absurd hcon.1 (not_le.mpr hvas))]
  rw [if_neg (not_le.mpr (lt_trans hcomb (by norm_num)))]
  rw [if_neg (not_le.mpr hcomb)]
  by_cases h3 : (3:ℚ)/10 ≤ max (assessOverallRisk (buildConditions ps)
      (calcSystemicRisk (buildConditions ps))).risk_score
    (maxBoostedSystemic (calcSystemicRisk (buildConditions ps)) v * (4/5))
  · rw [if_pos h3]
    exact Or.inl rfl
  · rw [if_neg h3]
    exact Or.inr rfl

/-- C1 witness: the override theorem applied at a concrete probability vector
(healthy 0.8) and calm vascular metrics. -/
theorem c1_override_witness :
    ((analyzeRiskAssessment ⟨1/20, 1/10, 1/20, 4/5⟩ ⟨3/5, 1/10, 7, 1/2⟩).risk_level =
        RiskLevel.low ∨
      (analyzeRiskAssessment ⟨1/20, 1/10, 1/20, 4/5⟩ ⟨3/5, 1/10, 7, 1/2⟩).risk_level =
        RiskLevel.minimal) ∧
    (analyzeRiskAssessment ⟨1/20, 1/10, 1/20, 4/5⟩ ⟨3/5, 1/10, 7, 1/2⟩).primary_condition =
      OctClass.NORMAL :=
  c1_override_holds_without_escalation ⟨1/20, 1/10, 1/20, 4/5⟩ ⟨3/5, 1/10, 7, 1/2⟩
    (by norm_num) (by norm_num) (by norm_num) (by norm_num) (by norm_num)
    (by norm_num [max_def])

/-- C1 counterexample: with healthy probability 0.9 and DME 0.35 (positive)
but tortuosity 0.8, the final risk level is Medium — neither Low nor Minimal —
so the claim as stated (for every probability vector, regardless of the
vascular metrics) is false. -/
theorem c1_override_counterexample :
    (7/10 : ℚ) < (Probs.mk 0 (7/20) 0 (9/10)).normal ∧
    (buildConditions (Probs.mk 0 (7/20) 0 (9/10)) OctClass.DME).positive = true ∧
    (analyzeRiskAssessment (Probs.mk 0 (7/20) 0 (9/10))
      (VascularMetrics.mk (4/5) 0 0 0)).risk_level = RiskLevel.medium ∧
    RiskLevel.medium ≠ RiskLevel.low ∧ RiskLevel.medium ≠ RiskLevel.minimal := by
  refine ⟨by norm_num, ?_, ?_, by simp, by simp⟩
  · simp only [buildConditions, buildCondition, clinicalThreshold, Probs.get]
    try norm_num
    try simp
    try norm_num
  · simp only [analyzeRiskAssessment, enrichAssessment, assessOverallRisk, buildConditions,
      buildCondition, calcSystemicRisk, clinicalThreshold, determineSeverity, Probs.get,
      maxBoostedSystemic, enrichSystemic, boostedScore, vascularInfluence, systemicLevel,
      nonNormalClasses, allRiskCats, condScanStep, riskFactorTable, List.foldl, List.filter,
      List.map, List.sum_cons, List.sum_nil]
    try norm_num
    try simp
    try norm_num
    try simp
    try decide

/-- C2 (amended): every ConditionRecord built by the classifier interpreter
`_build_clinical_results` satisfies the invariant: positive holds iff the
probability reaches the class threshold and the class is not NORMAL. (The
hardcoded fallback NORMAL record violates the invariant; see the
counterexample.) -/
theorem c2_interpreter_positive_invariant (ps : Probs) (c : OctClass) :
    ((buildConditions ps c).positive = true ↔
      (clinicalThreshold c ≤ ps.get c ∧ c ≠ OctClass.NORMAL)) ∧
    (∀ d, d ≠ OctClass.NORMAL →
      ((fallbackConditions d).positive = true ↔
        ((fallbackConditions d).threshold ≤ (fallbackConditions d).probability ∧
          d ≠ OctClass.NORMAL))) := by
  constructor
  · simp [buildConditions, buildCondition]
  · intro d hd
    cases d
    case NORMAL => exact absurd rfl hd
    all_goals simp [fallbackConditions] <;> norm_num

/-- C2 counterexample: the fallback NORMAL record of
`generate_fallback_results` has positive = true although its label is the
healthy class, so the invariant's right-hand side is false for it. -/
theorem c2_fallback_normal_positive :
    (fallbackConditions OctClass.NORMAL).positive = true ∧
    ¬ ((fallbackConditions OctClass.NORMAL).threshold ≤
          (fallbackConditions OctClass.NORMAL).probability ∧
        OctClass.NORMAL ≠ OctClass.NORMAL) := by
  constructor
  · rfl
  · simp

/-- C4 (confirmed): the pass-2 vascular re-blend is componentwise monotone —
raising any vascular metric (the others not decreasing) never lowers the
boosted score — and the boosted score never exceeds the original systemic
risk score by more than 0.25. -/
theorem c4_boost_monotone_capped (k : RiskCat) (sys : RiskCat → SystemicRisk)
    (v v' : VascularMetrics)
    (ht : v.tortuosity_index ≤ v'.tortuosity_index)
    (hw : v.width_variation_index ≤ v'.width_variation_index)
    (hh : v.hemorrhage_score ≤ v'.hemorrhage_score) :
    (enrichSystemic sys v k).risk_score ≤ (enrichSystemic sys v' k).risk_score ∧
    (enrichSystemic sys v k).risk_score - (sys k).risk_score ≤ 1/4 := by
  have hinf : vascularInfluence v k ≤ vascularInfluence v' k := by
    cases k <;> simp only [vascularInfluence] <;> nlinarith
  constructor
  · exact min_le_min le_rfl (add_le_add_left (min_le_min hinf le_rfl) _)
  · have h1 : min (vascularInfluence v k) (1/4 : ℚ) ≤ 1/4 := min_le_right _ _
    have h2 : (enrichSystemic sys v k).risk_score ≤
        (sys k).risk_score + min (vascularInfluence v k) (1/4) := min_le_right _ _
    linarith

/-- C4 witness: the boost theorem applied at concrete metrics. -/
theorem c4_boost_witness :
    (enrichSystemic fallbackSystemic ⟨0, 0, 0, 0⟩ RiskCat.cardiovascular).risk_score ≤
      (enrichSystemic fallbackSystemic ⟨1/2, 1/2, 0, 1/2⟩ RiskCat.cardiovascular).risk_score ∧
    (enrichSystemic fallbackSystemic ⟨0, 0, 0, 0⟩ RiskCat.cardiovascular).risk_score -
      (fallbackSystemic RiskCat.cardiovascular).risk_score ≤ 1/4 :=
  c4_boost_monotone_capped RiskCat.cardiovascular fallbackSystemic ⟨0, 0, 0, 0⟩
    ⟨1/2, 1/2, 0, 1/2⟩ (by norm_num) (by norm_num) (by norm_num)

/-- C5 (amended): `requires_referral` in the final assessment equals the
value computed in pass 1 (the vascular re-blend copies it unchanged), and
that pass-1 value is true iff the pass-1 risk level is High or Medium and the
pass-1 primary condition is not NORMAL. After the vascular escalation the
biconditional against the final level no longer holds. -/
theorem c5_referral_matches_preenrich_level (ps : Probs) (v : VascularMetrics) :
    (analyzeRiskAssessment ps v).requires_referral =
      (assessOverallRisk (buildConditions ps)
        (calcSystemicRisk (buildConditions ps))).requires_referral ∧
    ((assessOverallRisk (buildConditions ps)
        (calcSystemicRisk (buildConditions ps))).requires_referral = true ↔
      (((assessOverallRisk (buildConditions ps)
            (calcSystemicRisk (buildConditions ps))).risk_level = RiskLevel.high ∨
          (assessOverallRisk (buildConditions ps)
            (calcSystemicRisk (buildConditions ps))).risk_level = RiskLevel.medium) ∧
        (assessOverallRisk (buildConditions ps)
          (calcSystemicRisk (buildConditions ps))).primary_condition ≠ OctClass.NORMAL)) := by
  constructor
  · rfl
  · simp only [assessOverallRisk, decide_eq_true_eq]

/-- C5 counterexample: CNV 0.35 (positive), NORMAL 0.5, tortuosity 0.8 — the
vascular escalation lifts the final level to Medium with primary CNV, yet
requires_referral stays false, refuting the claimed biconditional on the
final assessment. -/
theorem c5_escalated_without_referral :
    (analyzeRiskAssessment ⟨7/20, 1/20, 1/20, 1/2⟩ ⟨4/5, 0, 0, 0⟩).risk_level =
      RiskLevel.medium ∧
    (analyzeRiskAssessment ⟨7/20, 1/20, 1/20, 1/2⟩ ⟨4/5, 0, 0, 0⟩).primary_condition =
      OctClass.CNV ∧
    (analyzeRiskAssessment ⟨7/20, 1/20, 1/20, 1/2⟩ ⟨4/5, 0, 0, 0⟩).requires_referral = false := by
  simp only [analyzeRiskAssessment, enrichAssessment, assessOverallRisk, buildConditions,
    buildCondition, calcSystemicRisk, clinicalThreshold, determineSeverity, Probs.get,
    maxBoostedSystemic, enrichSystemic, boostedScore, vascularInfluence, systemicLevel,
    nonNormalClasses, allRiskCats, condScanStep, riskFactorTable, List.foldl, List.filter,
    List.map, List.sum_cons, List.sum_nil]
  try norm_num
  try simp
  try norm_num
  try simp
  try decide

/-- C6 (amended): when the classifier is unavailable the system substitutes
the fixed hardcoded record of `generate_fallback_results`, which is NOT the
result of running the downstream stages on the 70/10/10/10 fallback vector:
the hardcoded systemic scores are 0.1 where the computed ones are 0, the
hardcoded assessment level is Low where the computed one is Minimal, and the
hardcoded NORMAL severity is Healthy where the computed one is Uncertain. -/
theorem c6_fallback_is_hardcoded_not_recomputed :
    fallbackRiskAssessment.risk_level = RiskLevel.low ∧
    (assessOverallRisk (buildConditions fallbackProbs)
      (calcSystemicRisk (buildConditions fallbackProbs))).risk_level = RiskLevel.minimal ∧
    (fallbackSystemic RiskCat.cardiovascular).risk_score = 1/10 ∧
    (calcSystemicRisk (buildConditions fallbackProbs) RiskCat.cardiovascular).risk_score = 0 ∧
    (fallbackConditions OctClass.NORMAL).severity = Severity.healthy ∧
    (buildConditions fallbackProbs OctClass.NORMAL).severity = Severity.uncertain := by
  simp only [fallbackRiskAssessment, fallbackSystemic, fallbackConditions, fallbackProbs,
    assessOverallRisk, buildConditions, buildCondition, calcSystemicRisk, clinicalThreshold,
    determineSeverity, Probs.get, systemicLevel, nonNormalClasses, allRiskCats, condScanStep,
    riskFactorTable, List.foldl, List.filter, List.map, List.sum_cons, List.sum_nil]
  try norm_num
  try simp
  try norm_num
  try simp
  try decide

/-- C6 counterexample: the hardcoded fallback risk level (Low) differs from
the risk level the downstream stages compute on the fallback probability
vector (Minimal), so downstream behaviour is not identical. -/
theorem c6_fallback_level_differs :
    fallbackRiskAssessment.risk_level ≠
      (assessOverallRisk (buildConditions fallbackProbs)
        (calcSystemicRisk (buildConditions fallbackProbs))).risk_level := by
  simp only [fallbackRiskAssessment, assessOverallRisk, buildConditions, buildCondition,
    calcSystemicRisk, clinicalThreshold, determineSeverity, Probs.get, systemicLevel,
    nonNormalClasses, allRiskCats, condScanStep, riskFactorTable, List.foldl, List.filter,
    fallbackProbs, List.map, List.sum_cons, List.sum_nil]
  try norm_num
  try simp
  try norm_num
  try simp
  try decide

/-- C7: evaluation of `analyze_image_features` at the failing input — edge
detection raises, blob detection finds 3 keypoints, texture variance is 250.
The dict keeps vessel_density 0, count 3 and texture 250, but the vascular
metrics collapse to the all-zero defaults (width variation 0), while the
derivation from the remaining successful features, as the spec requires,
would give width variation 0.65. -/
theorem c7_edge_failure_zeroes_vascular_metrics :
    (analyzeImageFeatures none (some 3) (some 250)).vessel_density = 0 ∧
    (analyzeImageFeatures none (some 3) (some 250)).potential_abnormalities_count = 3 ∧
    (analyzeImageFeatures none (some 3) (some 250)).texture_variance = 250 ∧
    (analyzeImageFeatures none (some 3) (some 250)).vascular_metrics.width_variation_index = 0 ∧
    (deriveVascularMetrics 0 3 250).width_variation_index = 13/20 := by
  simp only [analyzeImageFeatures, deriveVascularMetrics, defaultVascularMetrics, Option.getD]
  try norm_num
  try simp
  try norm_num

/-- C10 (confirmed): in the pass-1 assessment, when the primary condition is
NORMAL the reported risk score is 1 minus the NORMAL probability; otherwise
the risk score is attained by a positive non-healthy condition and dominates
every positive non-healthy condition's probability. -/
theorem c10_risk_score_formula (conds : OctClass → ConditionRecord)
    (sys : RiskCat → SystemicRisk) :
    ((assessOverallRisk conds sys).primary_condition = OctClass.NORMAL →
      (assessOverallRisk conds sys).risk_score = 1 - (conds OctClass.NORMAL).probability) ∧
    ((assessOverallRisk conds sys).primary_condition ≠ OctClass.NORMAL →
      (∃ c, c ≠ OctClass.NORMAL ∧ (conds c).positive = true ∧
        (conds c).probability = (assessOverallRisk conds sys).risk_score) ∧
      (∀ c, c ≠ OctClass.NORMAL → (conds c).positive = true →
        (conds c).probability ≤ (assessOverallRisk conds sys).risk_score)) := by
  have hspec := condScan_foldl_spec conds nonNormalClasses (0, OctClass.NORMAL)
  set s := nonNormalClasses.foldl (condScanStep conds) (0, OctClass.NORMAL) with hs
  have hprim : (assessOverallRisk conds sys).primary_condition =
      (if 7/10 < (conds OctClass.NORMAL).probability then OctClass.NORMAL else s.2) := rfl
  have hscore : (assessOverallRisk conds sys).risk_score =
      (if (if 7/10 < (conds OctClass.NORMAL).probability then OctClass.NORMAL else s.2) ≠
          OctClass.NORMAL then s.1 else 1 - (conds OctClass.NORMAL).probability) := rfl
  by_cases hn : 7/10 < (conds OctClass.NORMAL).probability
  · rw [if_pos hn] at hprim hscore
    simp only [ne_eq, not_true_eq_false, if_false] at hscore
    refine ⟨fun _ => hscore, fun habs => absurd hprim habs⟩
  · rw [if_neg hn] at hprim hscore
    constructor
    · intro hp
      rw [hprim] at hp
      rw [hscore, if_neg (by simp [hp])]
    · intro hp
      rw [hprim] at hp
      rw [hscore, if_pos hp]
      rcases hspec with ⟨hA, hB, _⟩
      constructor
      · rcases hA with hA | ⟨c, hc, hpos, h1, h2⟩
        · rw [hA] at hp
          exact absurd rfl hp
        · exact ⟨c, (mem_nonNormalClasses c).mp hc, hpos, h1.symm⟩
      · intro c hcn hpos
        exact hB c ((mem_nonNormalClasses c).mpr hcn) hpos

theorem sum_range_two_mul (k : ℕ) (g : ℕ → ℚ) :
    ∑ i ∈ Finset.range (2 * k), g (i % 2) = k * (g 0 + g 1) := by
  induction k with
  | zero => simp
  | succ n ih =>
    have h2 : 2 * (n + 1) = 2 * n + 1 + 1 := by ring
    rw [h2, Finset.sum_range_succ, Finset.sum_range_succ, ih]
    have e1 : (2 * n) % 2 = 0 := by omega
    have e2 : (2 * n + 1) % 2 = 1 := by omega
    rw [e1, e2]
    push_cast
    ring

theorem meanOver_stripe (g : ℕ → ℚ) (f : ℕ → ℕ → ℚ)
    (hf : ∀ i j, i < 4098 → j < 256 → f i j = g (i % 2)) :
    meanOver stripeImage f = (g 0 + g 1) / 2 := by
  unfold meanOver pixels
  have hsum : ∑ p ∈ Finset.range stripeImage.h ×ˢ Finset.range stripeImage.w, f p.1 p.2
      = 256 * (2049 * (g 0 + g 1)) := by
    rw [Finset.sum_product]
    have hrow : ∀ i ∈ Finset.range stripeImage.h,
        ∑ j ∈ Finset.range stripeImage.w, f i j = 256 * g (i % 2) := by
      intro i hi
      have hi4 : i < 4098 := by simpa [stripeImage] using Finset.mem_range.mp hi
      have hcong : ∀ j ∈ Finset.range stripeImage.w, f i j = g (i % 2) := by
        intro j hj
        exact hf i j hi4 (by simpa [stripeImage] using Finset.mem_range.mp hj)
      rw [Finset.sum_congr rfl hcong, Finset.sum_const, Finset.card_range]
      simp [stripeImage, nsmul_eq_mul]
    rw [Finset.sum_congr rfl hrow, ← Finset.mul_sum]
    have hh : stripeImage.h = 2 * 2049 := by norm_num [stripeImage]
    rw [hh, sum_range_two_mul]
    push_cast
    ring
  rw [hsum]
  norm_num [stripeImage]
  ring


theorem stripe_reflect_pred (i : ℕ) (hi : i < 4098) :
    (reflect101 4098 ((i : ℤ) - 1)) % 2 = (i + 1) % 2 := by
  unfold reflect101
  split_ifs with h1 h2
  · omega
  · omega
  · omega

theorem stripe_reflect_succ (i : ℕ) (hi : i < 4098) :
    (reflect101 4098 ((i : ℤ) + 1)) % 2 = (i + 1) % 2 := by
  unfold reflect101
  split_ifs with h1 h2
  · omega
  · omega
  · omega

theorem stripe_laplacian (i j : ℕ) (hi : i < 4098) (hj : j < 256) :
    laplacian stripeImage i j = (if i % 2 = 0 then (510:ℚ) else -510) := by
  have hp1 := stripe_reflect_pred i hi
  have hp2 := stripe_reflect_succ i hi
  simp only [laplacian, stripeImage] at hp1 hp2 ⊢
  rw [hp1, hp2]
  rcases Nat.mod_two_eq_zero_or_one i with hpar | hpar
  · have e : (i + 1) % 2 = 1 := by omega
    rw [hpar, e]
    norm_num
  · have e : (i + 1) % 2 = 0 := by omega
    rw [hpar, e]
    norm_num


theorem stripe_mean : meanOver stripeImage stripeImage.px = 255/2 := by
  have h := meanOver_stripe (fun r => if r = 0 then (0:ℚ) else 255) stripeImage.px
    (fun i j _ _ => rfl)
  rw [h]
  norm_num

theorem stripe_var : varOver stripeImage stripeImage.px = 65025/4 := by
  unfold varOver
  rw [stripe_mean]
  have h := meanOver_stripe (fun r => ((if r = 0 then (0:ℚ) else 255) - 255/2) ^ 2)
    (fun i j => (stripeImage.px i j - 255/2) ^ 2) (fun i j _ _ => rfl)
  rw [h]
  norm_num

theorem stripe_lap_mean : meanOver stripeImage (laplacian stripeImage) = 0 := by
  have h := meanOver_stripe (fun r => if r = 0 then (510:ℚ) else -510) (laplacian stripeImage)
    (fun i j hi hj => stripe_laplacian i j hi hj)
  rw [h]
  norm_num

theorem stripe_lap_var : varOver stripeImage (laplacian stripeImage) = 260100 := by
  unfold varOver
  rw [stripe_lap_mean]
  have h := meanOver_stripe (fun r => ((if r = 0 then (510:ℚ) else -510) - 0) ^ 2)
    (fun i j => (laplacian stripeImage i j - 0) ^ 2)
    (fun i j hi hj => by simp only [stripe_laplacian i j hi hj])
  rw [h]
  norm_num

theorem maxPix_le (img : GrayImage) (hh : img.h ≠ 0) (hw : img.w ≠ 0) (B : ℚ)
    (h : ∀ a b, img.px a b ≤ B) : maxPix img hh hw ≤ B := by
  unfold maxPix
  refine (Finset.sup'_le_iff (pixelsNonempty img hh hw) (fun p => img.px p.1 p.2)).mpr ?_
  intro p hp
  exact h p.1 p.2

theorem le_maxPix (img : GrayImage) (hh : img.h ≠ 0) (hw : img.w ≠ 0) (a b : ℕ)
    (ha : a < img.h) (hb : b < img.w) : img.px a b ≤ maxPix img hh hw := by
  unfold maxPix
  refine (Finset.le_sup'_iff (pixelsNonempty img hh hw)).mpr ⟨(a, b), ?_, le_rfl⟩
  simp only [pixels, Finset.mem_product, Finset.mem_range]
  exact ⟨ha, hb⟩

theorem le_minPix (img : GrayImage) (hh : img.h ≠ 0) (hw : img.w ≠ 0) (B : ℚ)
    (h : ∀ a b, B ≤ img.px a b) : B ≤ minPix img hh hw := by
  unfold minPix
  refine (Finset.le_inf'_iff (pixelsNonempty img hh hw) (fun p => img.px p.1 p.2)).mpr ?_
  intro p hp
  exact h p.1 p.2

theorem minPix_le (img : GrayImage) (hh : img.h ≠ 0) (hw : img.w ≠ 0) (a b : ℕ)
    (ha : a < img.h) (hb : b < img.w) : minPix img hh hw ≤ img.px a b := by
  unfold minPix
  refine (Finset.inf'_le_iff (pixelsNonempty img hh hw)).mpr ⟨(a, b), ?_, le_rfl⟩
  simp only [pixels, Finset.mem_product, Finset.mem_range]
  exact ⟨ha, hb⟩

theorem stripe_px_le (a b : ℕ) : stripeImage.px a b ≤ 255 := by
  simp only [stripeImage]
  split_ifs <;> norm_num

theorem stripe_px_nonneg (a b : ℕ) : 0 ≤ stripeImage.px a b := by
  simp only [stripeImage]
  split_ifs <;> norm_num

theorem stripe_max (hh : stripeImage.h ≠ 0) (hw : stripeImage.w ≠ 0) :
    maxPix stripeImage hh hw = 255 := by
  apply le_antisymm (maxPix_le stripeImage hh hw 255 stripe_px_le)
  have h1 := le_maxPix stripeImage hh hw 1 0 (by norm_num [stripeImage]) (by norm_num [stripeImage])
  have h10 : stripeImage.px 1 0 = 255 := by norm_num [stripeImage]
  rw [h10] at h1
  exact h1

theorem stripe_min (hh : stripeImage.h ≠ 0) (hw : stripeImage.w ≠ 0) :
    minPix stripeImage hh hw = 0 := by
  apply le_antisymm
  · have h1 := minPix_le stripeImage hh hw 0 0 (by norm_num [stripeImage]) (by norm_num [stripeImage])
    have h00 : stripeImage.px 0 0 = 0 := by norm_num [stripeImage]
    rw [h00] at h1
    exact h1
  · exact le_minPix stripeImage hh hw 0 stripe_px_nonneg

theorem stripe_dynamicRange (hh : stripeImage.h ≠ 0) (hw : stripeImage.w ≠ 0) :
    dynamicRange stripeImage hh hw = 255 := by
  unfold dynamicRange
  rw [stripe_max, stripe_min]
  norm_num


theorem assessImageQuality_eval (img : GrayImage) (hh : img.h ≠ 0) (hw : img.w ≠ 0) :
    assessImageQuality img =
      min 1 (min ((varOver img (laplacian img) : ℝ) / 500) 1 * 0.3
        + min (Real.sqrt ((varOver img img.px : ℝ)) / 50) 1 * 0.3
        + min (|(meanOver img img.px : ℝ) - 128| / 128) 1 * 0.2
        + min (((dynamicRange img hh hw : ℚ) : ℝ) / 255) 1 * 0.2) := by
  unfold assessImageQuality
  split_ifs with hdeg
  · rcases hdeg with h0 | w0
    · exact absurd h0 hh
    · exact absurd w0 hw
  · rfl

theorem stripe_quality : assessImageQuality stripeImage = 0.80078125 := by
  rw [assessImageQuality_eval stripeImage (by norm_num [stripeImage]) (by norm_num [stripeImage])]
  rw [stripe_lap_var, stripe_var, stripe_mean, stripe_dynamicRange]
  have c1 : ((260100:ℚ):ℝ) = (260100:ℝ) := by norm_num
  have c2 : (((65025:ℚ)/4:ℚ):ℝ) = ((255:ℝ)/2)^2 := by norm_num
  have c3 : (((255:ℚ)/2:ℚ):ℝ) = (255:ℝ)/2 := by norm_num
  have c4 : ((255:ℚ):ℝ) = (255:ℝ) := by norm_num
  rw [c1, c2, c3, c4, Real.sqrt_sq (by norm_num : (0:ℝ) ≤ 255/2)]
  have habs : |(255:ℝ)/2 - 128| = 1/2 := by
    rw [abs_of_nonpos] <;> norm_num
  rw [habs]
  rw [min_eq_right (show (1:ℝ) ≤ 260100/500 by norm_num)]
  rw [min_eq_right (show (1:ℝ) ≤ (255/2)/50 by norm_num)]
  rw [min_eq_left (show ((1:ℝ)/2)/128 ≤ 1 by norm_num)]
  rw [min_eq_right (show (1:ℝ) ≤ 255/255 by norm_num)]
  rw [min_eq_right (show (1:ℝ)*0.3 + 1*0.3 + (1/2)/128*0.2 + 1*0.2 ≤ 1 by norm_num)]
  norm_num

/-- C3 (amended): a quality report is invalid exactly when the quality score
is below 0.5 or a minimum-dimension constraint fails (width or height below
256); an oversize dimension (above 4096) only appends the very-large warning
to the issues list and does not invalidate the report. -/
theorem c3_validity_criterion (img : GrayImage) :
    (¬ (validateImage img).is_valid ↔
      (assessImageQuality img < 1/2 ∨ img.w < 256 ∨ img.h < 256)) ∧
    ((4096 < img.w ∨ 4096 < img.h) → IssueTag.veryLarge ∈ (validateImage img).issues) := by
  constructor
  · simp only [validateImage]
    constructor
    · intro h
      by_cases h1 : img.w < 256 ∨ img.h < 256
      · right; exact h1
      · by_cases h2 : assessImageQuality img < 1/2
        · left; exact h2
        · exact absurd ⟨h1, h2⟩ h
    · intro h hcon
      rcases h with h | h
      · exact hcon.2 h
      · exact hcon.1 h
  · intro hbig
    simp only [validateImage]
    have hif : (if 4096 < img.w ∨ 4096 < img.h then [IssueTag.veryLarge] else []) =
        [IssueTag.veryLarge] := if_pos hbig
    simp [List.mem_append, hif]

/-- C3 counterexample: the striped 4098×256 image exceeds the 4096 height
bound yet its report is valid (its quality score is 0.80078125), so an
oversize dimension does not force is_valid to false as the claim states. -/
theorem c3_oversize_still_valid :
    4096 < stripeImage.h ∧ (validateImage stripeImage).is_valid := by
  constructor
  · norm_num [stripeImage]
  · simp only [validateImage]
    constructor
    · norm_num [stripeImage]
    · rw [stripe_quality]
      norm_num

/-- C8 helper: a mean of a pointwise-nonnegative quantity is nonnegative. -/
theorem meanOver_nonneg (img : GrayImage) (f : ℕ → ℕ → ℚ) (h : ∀ a b, 0 ≤ f a b) :
    0 ≤ meanOver img f := by
  unfold meanOver
  apply div_nonneg
  · exact Finset.sum_nonneg fun p _ => h p.1 p.2
  · positivity

/-- The variance of any per-pixel quantity is nonnegative. -/
theorem varOver_nonneg (img : GrayImage) (f : ℕ → ℕ → ℚ) : 0 ≤ varOver img f :=
  meanOver_nonneg img _ (fun _ _ => sq_nonneg _)

/-- The minimum pixel never exceeds the maximum pixel. -/
theorem minPix_le_maxPix (img : GrayImage) (hh : img.h ≠ 0) (hw : img.w ≠ 0) :
    minPix img hh hw ≤ maxPix img hh hw :=
  le_trans
    (minPix_le img hh hw 0 0 (Nat.pos_of_ne_zero hh) (Nat.pos_of_ne_zero hw))
    (le_maxPix img hh hw 0 0 (Nat.pos_of_ne_zero hh) (Nat.pos_of_ne_zero hw))

/-- The dynamic range (np.ptp) is nonnegative. -/
theorem dynamicRange_nonneg (img : GrayImage) (hh : img.h ≠ 0) (hw : img.w ≠ 0) :
    0 ≤ dynamicRange img hh hw := by
  have := minPix_le_maxPix img hh hw
  unfold dynamicRange
  linarith

/-- C8 (confirmed): the quality-assessment function is total over all image
arrays, always returns a score in [0, 1], and returns exactly 0.0 on the
degenerate (zero-size) inputs on which its numpy/cv2 body would raise. -/
theorem c8_quality_total_in_unit_interval (img : GrayImage) :
    (0 ≤ assessImageQuality img ∧ assessImageQuality img ≤ 1) ∧
    ((img.h = 0 ∨ img.w = 0) → assessImageQuality img = 0) := by
  unfold assessImageQuality
  split_ifs with hdeg
  · exact ⟨⟨le_refl 0, by norm_num⟩, fun _ => rfl⟩
  · refine ⟨⟨?_, min_le_left _ _⟩, fun hcon => absurd hcon hdeg⟩
    have hvl : (0:ℝ) ≤ ((varOver img (laplacian img) : ℚ) : ℝ) := by
      exact_mod_cast varOver_nonneg img (laplacian img)
    have hdr : (0:ℝ) ≤ ((dynamicRange img (fun h0 => hdeg (Or.inl h0))
        (fun w0 => hdeg (Or.inr w0)) : ℚ) : ℝ) := by
      exact_mod_cast dynamicRange_nonneg img _ _
    have t1 : (0:ℝ) ≤ min (((varOver img (laplacian img) : ℚ) : ℝ) / 500) 1 :=
      le_min (div_nonneg hvl (by norm_num)) (by norm_num)
    have t2 : (0:ℝ) ≤ min (Real.sqrt ((varOver img img.px : ℚ) : ℝ) / 50) 1 :=
      le_min (div_nonneg (Real.sqrt_nonneg _) (by norm_num)) (by norm_num)
    have t3 : (0:ℝ) ≤ min (|((meanOver img img.px : ℚ) : ℝ) - 128| / 128) 1 :=
      le_min (div_nonneg (abs_nonneg _) (by norm_num)) (by norm_num)
    have t4 : (0:ℝ) ≤ min (((dynamicRange img (fun h0 => hdeg (Or.inl h0))
        (fun w0 => hdeg (Or.inr w0)) : ℚ) : ℝ) / 255) 1 :=
      le_min (div_nonneg hdr (by norm_num)) (by norm_num)
    refine le_min (by norm_num) ?_
    have w1 : (0:ℝ) ≤ (0.3 : ℝ) := by norm_num
    have w2 : (0:ℝ) ≤ (0.2 : ℝ) := by norm_num
    nlinarith

/-- C8 witness: the theorem evaluated at a degenerate zero-height image. -/
theorem c8_witness_degenerate :
    assessImageQuality { h := 0, w := 5, px := fun _ _ => 7 } = 0 :=
  (c8_quality_total_in_unit_interval { h := 0, w := 5, px := fun _ _ => 7 }).2 (Or.inl rfl)

/-- C9 (confirmed): the Wilson interval at p = 0.5 with n = 1000 has lower
bound 0.469 and upper bound 0.531, each to within 0.002. -/
theorem c9_wilson_interval_at_half :
    |(confidenceInterval (1/2) 1000).1 - 469/1000| ≤ 2/1000 ∧
    |(confidenceInterval (1/2) 1000).2 - 531/1000| ≤ 2/1000 := by
  simp only [confidenceInterval]
  have harg : ((1:ℝ)/2 * (1 - 1/2) / ((1000:ℕ):ℝ) + (1.96:ℝ)^2 / (4 * ((1000:ℕ):ℝ)^2)) =
      0.0002509604 := by
    push_cast
    norm_num
  rw [harg]
  have e1 : ((1000:ℕ):ℝ) = 1000 := by norm_num
  rw [e1]
  set s := Real.sqrt 0.0002509604 with hsdef
  have hs0 : (0:ℝ) ≤ s := Real.sqrt_nonneg _
  have hs1 : (0.01584:ℝ) ≤ s := by
    rw [hsdef, show (0.01584:ℝ) = Real.sqrt (0.01584^2) from (Real.sqrt_sq (by norm_num)).symm]
    exact Real.sqrt_le_sqrt (by norm_num)
  have hs2 : s ≤ 0.015842 := by
    rw [hsdef, show (0.015842:ℝ) = Real.sqrt (0.015842^2) from (Real.sqrt_sq (by norm_num)).symm]
    exact Real.sqrt_le_sqrt (by norm_num)
  have hd0 : (0:ℝ) < 1 + (1.96:ℝ)^2/1000 := by norm_num
  have hX1 : (0.467:ℝ) ≤ ((1:ℝ)/2 + (1.96:ℝ)^2/(2*1000) - 1.96*s)/(1 + (1.96:ℝ)^2/1000) := by
    rw [le_div_iff₀ hd0]
    nlinarith
  have hX2 : ((1:ℝ)/2 + (1.96:ℝ)^2/(2*1000) - 1.96*s)/(1 + (1.96:ℝ)^2/1000) ≤ 0.471 := by
    rw [div_le_iff₀ hd0]
    nlinarith
  have hY1 : (0.529:ℝ) ≤ ((1:ℝ)/2 + (1.96:ℝ)^2/(2*1000) + 1.96*s)/(1 + (1.96:ℝ)^2/1000) := by
    rw [le_div_iff₀ hd0]
    nlinarith
  have hY2 : ((1:ℝ)/2 + (1.96:ℝ)^2/(2*1000) + 1.96*s)/(1 + (1.96:ℝ)^2/1000) ≤ 0.533 := by
    rw [div_le_iff₀ hd0]
    nlinarith
  constructor
  · rw [max_eq_right (le_trans (by norm_num : (0:ℝ) ≤ 0.467) hX1)]
    rw [abs_le]
    constructor <;> [linarith; linarith]
  · rw [min_eq_right (le_trans hY2 (by norm_num : (0.533:ℝ) ≤ 1))]
    rw [abs_le]
    constructor <;> [linarith; linarith]

end Aura
